import Mathlib

/-!
Verification development for the semantic-kernel-plugins repository.

The repository ships adapter plugins for an AI orchestration framework:
an Execution Sandbox for generated Python code, a Code Generator, a
Generate-and-Execute Orchestrator, and resource adapters (database,
shell, web search).  The plugin implementation modules are not present
in the source tree (only documentation and usage examples are), so the
operations below are modelled from the specification, as stated in each
doc comment, and the claims are settled against these models.
-/

/-- Modelled from the spec: SandboxConfig (missing source module
`execute_python_code`): timeout duration, maximum output length, set of
disallowed module names, network-allowed flag, file-write-allowed flag,
memory ceiling; supplied at construction and immutable. -/
structure SandboxConfig where
  timeout_seconds : Nat
  max_output_length : Nat
  restricted_modules : List String
  allow_networking : Bool
  allow_file_write : Bool
  memory_limit_mb : Nat

/-- Modelled from the spec: ExecutionResult status (success/failure/timeout). -/
inductive ExecStatus where
  | success
  | failure
  | timeout
deriving DecidableEq

/-- Modelled from the spec: ExecutionResult: status, captured standard
output (truncated), captured error text, elapsed time. -/
structure ExecutionResult where
  status : ExecStatus
  output : String
  error : String
  elapsed : Nat

/-- Behaviour of one raw subprocess run of a code string, the external
effect the Sandbox wraps: the stdout the program prints, the error
message of an exception raised inside the code (if any), and the
wall-clock duration (`none` models code that never terminates). -/
structure RawExecution where
  raw_output : String
  raw_error : Option String
  duration : Option Nat

/-- Is `pat` a prefix of `l` (character lists)? -/
def isPrefixList : List Char → List Char → Bool
  | [], _ => true
  | _ :: _, [] => false
  | a :: as, b :: bs => a = b && isPrefixList as bs

/-- Does `pat` occur as a contiguous sublist of `l`? -/
def containsSub (pat : List Char) : List Char → Bool
  | [] => isPrefixList pat []
  | c :: cs => isPrefixList pat (c :: cs) || containsSub pat cs

/-- Does the pattern occur as a substring of `s`? -/
def containsSubstring (pat s : String) : Bool :=
  containsSub pat.toList s.toList

def importKeyword : String := "import "

def fromKeyword : String := "from "

/-- Modelled from the spec: the simple lexical scan — the code string
mentions an import of module `m` if it contains `import m` or `from m`. -/
def mentionsImportOf (m code : String) : Bool :=
  containsSubstring (importKeyword ++ m) code || containsSubstring (fromKeyword ++ m) code

/-- Modelled from the spec: the code contains an import of some module
on the configured denylist. -/
def importsRestricted (mods : List String) (code : String) : Bool :=
  mods.any (fun m => mentionsImportOf m code)

def truncation_marker : String := "... (output truncated)"

/-- Modelled from the spec: truncates captured output to the configured
maximum length, appending a truncation marker. -/
def truncateOutput (maxLen : Nat) (s : String) : String :=
  if s.length ≤ maxLen then s else String.mk (s.toList.take maxLen) ++ truncation_marker

def restrictedImportError : String := "Restricted module import detected"

def timeoutError : String := "Execution timed out: wall-clock limit exceeded"

def executionErrorTag : String := "Execution error: "

/-- Modelled from the spec: `ExecutePythonCodePlugin.execute_python_code`
(missing source module), instrumented with the number of subprocess
launches (second component).  Rejects denylisted imports at dispatch
time without launching a subprocess; otherwise runs the code via the
external effect `run`; on exceeding the wall-clock timeout returns
status timeout; an exception inside the code yields status failure with
the error text populated; otherwise success with truncated stdout. -/
def executeTr (cfg : SandboxConfig) (run : String → RawExecution) (code : String) :
    ExecutionResult × Nat :=
  if importsRestricted cfg.restricted_modules code then
    ({ status := ExecStatus.failure, output := "", error := restrictedImportError,
       elapsed := 0 }, 0)
  else
    match (run code).duration with
    | none =>
        ({ status := ExecStatus.timeout, output := "", error := timeoutError,
           elapsed := cfg.timeout_seconds }, 1)
    | some d =>
        if cfg.timeout_seconds < d then
          ({ status := ExecStatus.timeout, output := "", error := timeoutError,
             elapsed := cfg.timeout_seconds }, 1)
        else
          match (run code).raw_error with
          | some m =>
              ({ status := ExecStatus.failure,
                 output := truncateOutput cfg.max_output_length (run code).raw_output,
                 error := executionErrorTag ++ m, elapsed := d }, 1)
          | none =>
              ({ status := ExecStatus.success,
                 output := truncateOutput cfg.max_output_length (run code).raw_output,
                 error := "", elapsed := d }, 1)

/-- The Sandbox's execute operation: the ExecutionResult of `executeTr`. -/
def execute_python_code (cfg : SandboxConfig) (run : String → RawExecution)
    (code : String) : ExecutionResult :=
  (executeTr cfg run code).1

/-- Modelled from the spec: the retry loop of
`PythonCodeGeneratorPlugin.generate_and_execute_code` (missing source
module).  `gen i` is the code produced by the i-th Code Generator
invocation; the first argument is the number of retries still allowed
and the second the number of Generator invocations made so far.  Each
round generates, executes, stops on success, and otherwise retries
while retries remain; the returned pair is the last ExecutionResult and
the total number of Generator invocations. -/
def orchLoop (cfg : SandboxConfig) (run : String → RawExecution) (gen : Nat → String) :
    Nat → Nat → ExecutionResult × Nat
  | 0, i => (execute_python_code cfg run (gen i), i + 1)
  | retries + 1, i =>
      let r := execute_python_code cfg run (gen i)
      if r.status = ExecStatus.success then (r, i + 1)
      else orchLoop cfg run gen retries (i + 1)

/-- Modelled from the spec: the Generate-and-Execute Orchestrator with a
configured maximum retry count, returning the final ExecutionResult and
the number of Code Generator invocations. -/
def generate_and_execute_code (cfg : SandboxConfig) (run : String → RawExecution)
    (gen : Nat → String) (max_retries : Nat) : ExecutionResult × Nat :=
  orchLoop cfg run gen max_retries 0

/-- Modelled from the spec: GenerationError — the language model
produced no extractable code. -/
inductive GenError where
  | noCodeProduced
deriving DecidableEq

def codeFence : String := "```"

/-- The suffix of `l` following the first occurrence of `pat`, if any. -/
def afterSub (pat : List Char) : List Char → Option (List Char)
  | [] => if isPrefixList pat [] then some ([].drop pat.length) else none
  | c :: cs =>
      if isPrefixList pat (c :: cs) then some ((c :: cs).drop pat.length)
      else afterSub pat cs

/-- The elements of `l` before the first occurrence of `pat`, if any. -/
def takeUntilSub (pat : List Char) : List Char → Option (List Char)
  | [] => if isPrefixList pat [] then some [] else none
  | c :: cs =>
      if isPrefixList pat (c :: cs) then some []
      else (takeUntilSub pat cs).map (fun l => c :: l)

/-- Modelled from the spec: parses the model reply for a single fenced
code block — the text between the first two code fences — returning
none when no such block exists. -/
def extractCodeBlock (reply : String) : Option String :=
  match afterSub codeFence.toList reply.toList with
  | none => none
  | some rest =>
      match takeUntilSub codeFence.toList rest with
      | none => none
      | some body => some (String.mk body)

def errorContextTag : String := "\nPrevious error:\n"

/-- Modelled from the spec: builds a prompt combining the request and,
if present, the prior error (for retry-with-context). -/
def buildPrompt (request : String) (prior_error : Option String) : String :=
  match prior_error with
  | none => request
  | some e => request ++ errorContextTag ++ e

/-- Modelled from the spec: `PythonCodeGeneratorPlugin.generate_python_code`
(missing source module), instrumented with the number of language-model
completion calls (second component): it consults the model once on the
built prompt and extracts the fenced code block from the reply, failing
with GenerationError when none is found. -/
def generateTr (model : String → String) (request : String)
    (prior_error : Option String) : Except GenError String × Nat :=
  match extractCodeBlock (model (buildPrompt request prior_error)) with
  | some code => (Except.ok code, 1)
  | none => (Except.error GenError.noCodeProduced, 1)

/-- The Code Generator's generate operation: the result of `generateTr`. -/
def generate_python_code (model : String → String) (request : String)
    (prior_error : Option String) : Except GenError String :=
  (generateTr model request prior_error).1

/-- Outcome of one call into an underlying client library: a payload, or
a library-specific exception carrying a message. -/
inductive LibOutcome (α : Type) where
  | ok (payload : α)
  | raised (message : String)

/-- Modelled from the spec: the uniform result envelope returned by
every resource adapter operation. -/
structure Envelope (α : Type) where
  success : Bool
  data : Option α
  error : Option String

def errorTag : String := "Error: "

def validationError : String := "Validation error: required parameter is missing or empty"

/-- Modelled from the spec: converts a library call outcome to the
uniform envelope — success with the payload, or failure with the
exception message formatted into the error text. -/
def callEnvelope {α : Type} (out : LibOutcome α) : Envelope α :=
  match out with
  | LibOutcome.ok p => { success := true, data := some p, error := none }
  | LibOutcome.raised m => { success := false, data := none, error := some (errorTag ++ m) }

/-- The envelope returned when a required parameter is missing or empty. -/
def validationFailure {α : Type} : Envelope α :=
  { success := false, data := none, error := some validationError }

def isBlankChar (c : Char) : Bool := c = ' ' || c = '\t' || c = '\n' || c = '\r'

/-- A required text parameter is missing when empty or all whitespace. -/
def isBlank (s : String) : Bool := s.toList.all isBlankChar

/-- Modelled from the spec: a resource adapter operation — validate the
required text parameter, then delegate to the underlying client call
and normalize its outcome; the second component records whether the
external call was attempted. -/
def adapterOp {α : Type} (call : String → LibOutcome α) (arg : String) :
    Envelope α × Bool :=
  if isBlank arg then (validationFailure, false) else (callEnvelope (call arg), true)

/-- Modelled from the spec: the database adapter's query operation
(missing source module for `PostgrePlugin.execute_query`); the payload
is the list of result rows. -/
def execute_query (conn : String → LibOutcome (List (List String)))
    (query : String) : Envelope (List (List String)) × Bool :=
  adapterOp conn query

/-- Result of one shell command: exit status, stdout, stderr. -/
structure CommandResult where
  exit_code : Int
  out_text : String
  err_text : String

/-- Modelled from the spec: the shell adapter's command operation
(missing source module for `ShellPlugin.execute_shell_command`). -/
def execute_shell_command (sh : String → LibOutcome CommandResult)
    (command : String) : Envelope CommandResult × Bool :=
  adapterOp sh command

/-- One normalized web search record: title, url, snippet. -/
structure SearchRecord where
  title : String
  url : String
  snippet : String

/-- Modelled from the spec: the web search adapter's search operation
(missing source module for `TavilySearchPlugin.search`). -/
def search (api : String → LibOutcome (List SearchRecord))
    (query : String) : Envelope (List SearchRecord) × Bool :=
  adapterOp api query

/-- Modelled from the spec: one MongoDB collection — its name and its
documents. -/
structure MongoCollection where
  coll_name : String
  documents : List String

/-- Modelled from the spec: one MongoDB database — its name and its
collections. -/
structure MongoDatabase where
  db_name : String
  collections : List MongoCollection

/-- Modelled from the spec: the state of a MongoDB server — its
databases, collections, and documents. -/
structure MongoState where
  databases : List MongoDatabase

/-- Modelled from the spec: `MongoDBPlugin.database_exists` (missing
source module) — does a database with the given name exist?  Returned
with the resulting server state. -/
def database_exists (st : MongoState) (name : String) : Bool × MongoState :=
  (st.databases.any (fun d => d.db_name == name), st)

/-- Modelled from the spec: `MongoDBPlugin.list_collections` (missing
source module) — the collection names of the named database.  Returned
with the resulting server state. -/
def list_collections (st : MongoState) (name : String) : List String × MongoState :=
  (match st.databases.find? (fun d => d.db_name == name) with
    | some d => d.collections.map (fun c => c.coll_name)
    | none => [], st)

/-- Statistics of one database: number of collections and of documents. -/
structure DatabaseStats where
  collection_count : Nat
  document_count : Nat

/-- Modelled from the spec: `MongoDBPlugin.get_database_stats` (missing
source module) — collection and document counts of the named database.
Returned with the resulting server state. -/
def get_database_stats (st : MongoState) (name : String) : DatabaseStats × MongoState :=
  (match st.databases.find? (fun d => d.db_name == name) with
    | some d =>
        { collection_count := d.collections.length,
          document_count := (d.collections.map (fun c => c.documents.length)).sum }
    | none => { collection_count := 0, document_count := 0 }, st)

/-- A concrete configuration matching the documented defaults. -/
def cfg0 : SandboxConfig :=
  { timeout_seconds := 30, max_output_length := 4000,
    restricted_modules := ["os", "subprocess"],
    allow_networking := false, allow_file_write := false, memory_limit_mb := 100 }

def boomMsg : String := "boom"

def refusedMsg : String := "connection refused"

/-- A run oracle whose execution always raises. -/
def failRun : String → RawExecution :=
  fun _ => { raw_output := "", raw_error := some boomMsg, duration := some 1 }

/-- A run oracle whose execution never terminates. -/
def loopRun : String → RawExecution :=
  fun _ => { raw_output := "", raw_error := none, duration := none }

/-- A run oracle that prints `4` and finishes immediately. -/
def printRun : String → RawExecution :=
  fun _ => { raw_output := "4", raw_error := none, duration := some 0 }

/-- A generator oracle producing the same failing code every attempt. -/
def constGen : Nat → String := fun _ => "x = 1"

/-- A model oracle whose reply never contains a code fence. -/
def proseModel : String → String := fun _ => "I cannot produce code for that request."

/-- A database client whose call always raises. -/
def raisingConn : String → LibOutcome (List (List String)) :=
  fun _ => LibOutcome.raised refusedMsg

/-- A shell client whose call always raises. -/
def raisingSh : String → LibOutcome CommandResult :=
  fun _ => LibOutcome.raised refusedMsg

/-- A search client whose call always raises. -/
def raisingApi : String → LibOutcome (List SearchRecord) :=
  fun _ => LibOutcome.raised refusedMsg

def codeOs : String := "import os\nprint(os.getcwd())"

def codeDiv : String := "print(1/0)"

def codeLoop : String := "while True: pass"

def codePrint : String := "print(2+2)"

def sampleOut : String := "123456"

def query0 : String := "SELECT 1"

def cmd0 : String := "ls"

def topic0 : String := "news"

def request0 : String := "sort a list"

def emptyText : String := ""

def blankText : String := " "

theorem append_ne_empty (a b : String) (h : a ≠ "") : a ++ b ≠ "" := by
  intro hab
  apply h
  cases a with
  | mk la =>
    cases b with
    | mk lb =>
      have hdata : la ++ lb = [] := by
        have := congrArg String.data hab
        simpa [String.append] using this
      have hla : la = [] := (List.append_eq_nil.mp hdata).1
      simp [hla]

theorem orchLoop_all_fail (cfg : SandboxConfig) (run : String → RawExecution)
    (gen : Nat → String)
    (h : ∀ i, (execute_python_code cfg run (gen i)).status = ExecStatus.failure) :
    ∀ k i, orchLoop cfg run gen k i =
      (execute_python_code cfg run (gen (i + k)), i + k + 1) := by
  intro k
  induction k with
  | zero => intro i; simp [orchLoop]
  | succ n ih =>
      intro i
      have hfail := h i
      have harith : i + 1 + n = i + (n + 1) := by omega
      simp only [orchLoop]
      rw [hfail]
      simp only [reduceCtorEq, if_false]
      rw [ih (i + 1), harith]

/-- C1: when every generated code fails on execution, the Orchestrator
with maximum retry count N invokes the Code Generator exactly N+1
times, never more, and the returned result has failure status. -/
theorem orchestrator_retry_bound (cfg : SandboxConfig) (run : String → RawExecution)
    (gen : Nat → String) (max_retries : Nat)
    (h : ∀ i, (execute_python_code cfg run (gen i)).status = ExecStatus.failure) :
    (generate_and_execute_code cfg run gen max_retries).2 = max_retries + 1 ∧
    (generate_and_execute_code cfg run gen max_retries).1.status = ExecStatus.failure := by
  have hloop := orchLoop_all_fail cfg run gen h max_retries 0
  unfold generate_and_execute_code
  rw [hloop]
  exact ⟨by simp, by simpa using h max_retries⟩

/-- Witness for C1 with maximum retry count 2 and always-failing runs:
three Generator invocations and a failure result. -/
theorem orchestrator_retry_bound_witness :
    (generate_and_execute_code cfg0 failRun constGen 2).2 = 2 + 1 ∧
    (generate_and_execute_code cfg0 failRun constGen 2).1.status = ExecStatus.failure :=
  orchestrator_retry_bound cfg0 failRun constGen 2 (fun _ => rfl)

/-- C2: the Sandbox's execute operation is a total function (so it never
raises to its caller), every failure status carries non-empty error
text, and an exception inside the executed code (a raw run reporting an
error within the timeout) is captured as status failure with non-empty
error text. -/
theorem execute_never_raises (cfg : SandboxConfig) (run : String → RawExecution)
    (code : String) :
    ((execute_python_code cfg run code).status = ExecStatus.failure →
      (execute_python_code cfg run code).error ≠ "") ∧
    (importsRestricted cfg.restricted_modules code = false →
      ∀ m d, (run code).raw_error = some m → (run code).duration = some d →
        d ≤ cfg.timeout_seconds →
        (execute_python_code cfg run code).status = ExecStatus.failure ∧
        (execute_python_code cfg run code).error ≠ "") := by
  constructor
  · by_cases hR : importsRestricted cfg.restricted_modules code
    · intro _
      simp [execute_python_code, executeTr, hR]
      decide
    · rcases hdur : (run code).duration with _ | d
      · simp [execute_python_code, executeTr, hR, hdur]
      · by_cases hlt : cfg.timeout_seconds < d
        · simp [execute_python_code, executeTr, hR, hdur, hlt]
        · rcases herr : (run code).raw_error with _ | m
          · simp [execute_python_code, executeTr, hR, hdur, hlt, herr]
          · intro _
            simp [execute_python_code, executeTr, hR, hdur, hlt, herr]
            exact append_ne_empty executionErrorTag m (by decide)
  · intro hR m d herr hdur hle
    have hlt : ¬ cfg.timeout_seconds < d := by omega
    constructor
    · simp [execute_python_code, executeTr, hR, hdur, hlt, herr]
    · simp [execute_python_code, executeTr, hR, hdur, hlt, herr]
      exact append_ne_empty executionErrorTag m (by decide)

/-- Witness for C2 at code whose run raises an exception. -/
theorem execute_never_raises_witness :
    (execute_python_code cfg0 failRun codeDiv).status = ExecStatus.failure ∧
    (execute_python_code cfg0 failRun codeDiv).error ≠ "" := by
  have h := execute_never_raises cfg0 failRun codeDiv
  exact h.2 (by decide) boomMsg 1 rfl rfl (by decide)

/-- C3: a code string (free of denylisted imports) whose execution runs
longer than the configured timeout — or never terminates — yields
status timeout with a descriptive non-empty message; the execute
operation is a total function, so the call itself always terminates. -/
theorem execute_timeout (cfg : SandboxConfig) (run : String → RawExecution)
    (code : String)
    (hR : importsRestricted cfg.restricted_modules code = false)
    (hslow : (run code).duration = none ∨
      ∃ d, (run code).duration = some d ∧ cfg.timeout_seconds < d) :
    (execute_python_code cfg run code).status = ExecStatus.timeout ∧
    (execute_python_code cfg run code).error = timeoutError ∧
    timeoutError ≠ "" := by
  rcases hslow with hdur | ⟨d, hdur, hlt⟩
  · refine ⟨?_, ?_, by decide⟩
    · simp [execute_python_code, executeTr, hR, hdur]
    · simp [execute_python_code, executeTr, hR, hdur]
  · refine ⟨?_, ?_, by decide⟩
    · simp [execute_python_code, executeTr, hR, hdur, hlt]
    · simp [execute_python_code, executeTr, hR, hdur, hlt]

/-- Witness for C3 at code whose run never terminates. -/
theorem execute_timeout_witness :
    (execute_python_code cfg0 loopRun codeLoop).status = ExecStatus.timeout ∧
    (execute_python_code cfg0 loopRun codeLoop).error = timeoutError ∧
    timeoutError ≠ "" :=
  execute_timeout cfg0 loopRun codeLoop (by decide) (Or.inl rfl)

/-- C4: a code string containing an import of a denylisted module is
rejected with status failure, and no subprocess execution occurs (the
launch count of the instrumented execute is zero): the rejection is
decided by the lexical scan at dispatch time. -/
theorem execute_rejects_restricted (cfg : SandboxConfig) (run : String → RawExecution)
    (code : String) (hR : importsRestricted cfg.restricted_modules code = true) :
    (executeTr cfg run code).1.status = ExecStatus.failure ∧
    (executeTr cfg run code).2 = 0 := by
  simp [executeTr, hR]

/-- Witness for C4 at code that imports the denylisted module `os`. -/
theorem execute_rejects_restricted_witness :
    (executeTr cfg0 printRun codeOs).1.status = ExecStatus.failure ∧
    (executeTr cfg0 printRun codeOs).2 = 0 :=
  execute_rejects_restricted cfg0 printRun codeOs (by decide)

/-- C5: a code string free of denylisted imports whose run completes
within the timeout without raising yields status success, its output is
the truncated captured stdout, and when the stdout fits the configured
maximum it is returned unchanged (so it contains the printed output). -/
theorem execute_success (cfg : SandboxConfig) (run : String → RawExecution)
    (code : String) (d : Nat)
    (hR : importsRestricted cfg.restricted_modules code = false)
    (herr : (run code).raw_error = none)
    (hdur : (run code).duration = some d)
    (hfast : d ≤ cfg.timeout_seconds) :
    (execute_python_code cfg run code).status = ExecStatus.success ∧
    (execute_python_code cfg run code).output =
      truncateOutput cfg.max_output_length (run code).raw_output ∧
    ((run code).raw_output.length ≤ cfg.max_output_length →
      (execute_python_code cfg run code).output = (run code).raw_output) := by
  have hlt : ¬ cfg.timeout_seconds < d := by omega
  refine ⟨?_, ?_, ?_⟩
  · simp [execute_python_code, executeTr, hR, herr, hdur, hlt]
  · simp [execute_python_code, executeTr, hR, herr, hdur, hlt]
  · intro hfit
    simp [execute_python_code, executeTr, hR, herr, hdur, hlt, truncateOutput, hfit]

/-- Witness for C5: executing print(2+2) yields output 4. -/
theorem execute_success_witness :
    (execute_python_code cfg0 printRun codePrint).status = ExecStatus.success ∧
    (execute_python_code cfg0 printRun codePrint).output = "4" := by
  have h := execute_success cfg0 printRun codePrint 0 (by decide) rfl rfl (by decide)
  exact ⟨h.1, (h.2.2 (by decide)).trans rfl⟩

/-- C6: for every output of size up to ten times the configured maximum
length, truncation returns the output unchanged when it fits, and
otherwise returns exactly the first max-length characters with the
truncation marker appended. -/
theorem truncate_output_spec (maxLen : Nat) (s : String)
    (hsize : s.length ≤ 10 * maxLen) :
    (s.length ≤ maxLen → truncateOutput maxLen s = s) ∧
    (maxLen < s.length →
      truncateOutput maxLen s = String.mk (s.toList.take maxLen) ++ truncation_marker ∧
      (String.mk (s.toList.take maxLen)).length = maxLen) := by
  constructor
  · intro hfit
    simp [truncateOutput, hfit]
  · intro hbig
    have hnot : ¬ s.length ≤ maxLen := by omega
    refine ⟨by simp [truncateOutput, hnot], ?_⟩
    have h1 : (String.mk (s.toList.take maxLen)).length = (s.toList.take maxLen).length := rfl
    have h3 : s.toList.length = s.length := rfl
    rw [h1, List.length_take, h3]
    omega

/-- Witness for C6 at limit 4 and the six-character output 123456. -/
theorem truncate_output_spec_witness :
    sampleOut.length ≤ 10 * 4 ∧
    ((sampleOut.length ≤ 4 → truncateOutput 4 sampleOut = sampleOut) ∧
      (4 < sampleOut.length →
        truncateOutput 4 sampleOut =
          String.mk (sampleOut.toList.take 4) ++ truncation_marker ∧
        (String.mk (sampleOut.toList.take 4)).length = 4)) :=
  ⟨by decide, truncate_output_spec 4 sampleOut (by decide)⟩

theorem adapterOp_raised {α : Type} (call : String → LibOutcome α) (arg m : String)
    (hv : isBlank arg = false) (hr : call arg = LibOutcome.raised m) :
    (adapterOp call arg).1.success = false ∧
    (adapterOp call arg).1.error = some (errorTag ++ m) := by
  simp [adapterOp, hv, hr, callEnvelope]

theorem adapterOp_ok {α : Type} (call : String → LibOutcome α) (arg : String) (p : α)
    (hv : isBlank arg = false) (hr : call arg = LibOutcome.ok p) :
    (adapterOp call arg).1.success = true ∧
    (adapterOp call arg).1.data = some p := by
  simp [adapterOp, hv, hr, callEnvelope]

/-- C7: every resource adapter operation (database query, shell command,
web search), on a library exception from the underlying call, returns
the envelope success=false with non-empty error text rather than
propagating; on a successful underlying call it returns success=true
with the payload as data. -/
theorem adapters_uniform_envelope
    (conn : String → LibOutcome (List (List String)))
    (sh : String → LibOutcome CommandResult)
    (api : String → LibOutcome (List SearchRecord))
    (q c s m : String)
    (hq : isBlank q = false) (hc : isBlank c = false) (hs : isBlank s = false) :
    ((conn q = LibOutcome.raised m →
        (execute_query conn q).1.success = false ∧
        (execute_query conn q).1.error = some (errorTag ++ m) ∧ errorTag ++ m ≠ "") ∧
      (∀ p, conn q = LibOutcome.ok p →
        (execute_query conn q).1.success = true ∧
        (execute_query conn q).1.data = some p)) ∧
    ((sh c = LibOutcome.raised m →
        (execute_shell_command sh c).1.success = false ∧
        (execute_shell_command sh c).1.error = some (errorTag ++ m) ∧
        errorTag ++ m ≠ "") ∧
      (∀ p, sh c = LibOutcome.ok p →
        (execute_shell_command sh c).1.success = true ∧
        (execute_shell_command sh c).1.data = some p)) ∧
    ((api s = LibOutcome.raised m →
        (search api s).1.success = false ∧
        (search api s).1.error = some (errorTag ++ m) ∧ errorTag ++ m ≠ "") ∧
      (∀ p, api s = LibOutcome.ok p →
        (search api s).1.success = true ∧
        (search api s).1.data = some p)) := by
  have hne : errorTag ++ m ≠ "" := append_ne_empty errorTag m (by decide)
  refine ⟨⟨?_, ?_⟩, ⟨?_, ?_⟩, ⟨?_, ?_⟩⟩
  · intro hr
    have h := adapterOp_raised conn q m hq hr
    exact ⟨h.1, h.2, hne⟩
  · intro p hr
    exact adapterOp_ok conn q p hq hr
  · intro hr
    have h := adapterOp_raised sh c m hc hr
    exact ⟨h.1, h.2, hne⟩
  · intro p hr
    exact adapterOp_ok sh c p hc hr
  · intro hr
    have h := adapterOp_raised api s m hs hr
    exact ⟨h.1, h.2, hne⟩
  · intro p hr
    exact adapterOp_ok api s p hs hr

/-- Witness for C7: a raising database call yields the failure envelope
with non-empty error text. -/
theorem adapters_uniform_envelope_witness :
    (execute_query raisingConn query0).1.success = false ∧
    (execute_query raisingConn query0).1.error = some (errorTag ++ refusedMsg) ∧
    errorTag ++ refusedMsg ≠ "" := by
  have h := adapters_uniform_envelope raisingConn raisingSh raisingApi
    query0 cmd0 topic0 refusedMsg (by decide) (by decide) (by decide)
  exact h.1.1 rfl

/-- C8: every resource adapter operation invoked with a missing or empty
required parameter returns the validation-error envelope immediately,
and the underlying external call is never attempted (the attempted flag
of the instrumented operation is false). -/
theorem adapters_validate_params
    (conn : String → LibOutcome (List (List String)))
    (sh : String → LibOutcome CommandResult)
    (api : String → LibOutcome (List SearchRecord))
    (q c s : String)
    (hq : isBlank q = true) (hc : isBlank c = true) (hs : isBlank s = true) :
    (execute_query conn q).1 = validationFailure ∧ (execute_query conn q).2 = false ∧
    (execute_shell_command sh c).1 = validationFailure ∧
    (execute_shell_command sh c).2 = false ∧
    (search api s).1 = validationFailure ∧ (search api s).2 = false := by
  refine ⟨?_, ?_, ?_, ?_, ?_, ?_⟩ <;>
    simp [execute_query, execute_shell_command, search, adapterOp, hq, hc, hs]

/-- Witness for C8 at empty and whitespace-only parameters. -/
theorem adapters_validate_params_witness :
    (execute_query raisingConn emptyText).1 = validationFailure ∧
    (execute_query raisingConn emptyText).2 = false ∧
    (execute_shell_command raisingSh emptyText).1 = validationFailure ∧
    (execute_shell_command raisingSh emptyText).2 = false ∧
    (search raisingApi blankText).1 = validationFailure ∧
    (search raisingApi blankText).2 = false :=
  adapters_validate_params raisingConn raisingSh raisingApi emptyText emptyText blankText
    (by decide) (by decide) (by decide)

/-- C9: when the model reply contains no fenced code block the generate
operation fails with the no-code-produced condition, and the model
completion call is made exactly once per invocation. -/
theorem generate_no_code (model : String → String) (request : String)
    (prior_error : Option String)
    (h : extractCodeBlock (model (buildPrompt request prior_error)) = none) :
    generate_python_code model request prior_error =
      Except.error GenError.noCodeProduced ∧
    (generateTr model request prior_error).2 = 1 := by
  simp [generate_python_code, generateTr, h]

/-- Witness for C9 at a reply with no fenced code block. -/
theorem generate_no_code_witness :
    generate_python_code proseModel request0 none =
      Except.error GenError.noCodeProduced ∧
    (generateTr proseModel request0 none).2 = 1 :=
  generate_no_code proseModel request0 none rfl

/-- C10: the MongoDB adapter's public operations are read-only — for
every server state, database_exists, list_collections and
get_database_stats leave all databases, collections and documents
unchanged. -/
theorem mongodb_read_only (st : MongoState) (name : String) :
    (database_exists st name).2 = st ∧
    (list_collections st name).2 = st ∧
    (get_database_stats st name).2 = st :=
  ⟨rfl, rfl, rfl⟩
